import Mathlib

/-!
Verification of the mat64 repository (NDari/mat64): a dense row-major 2D
matrix over a flat float64 slice.  The corpus contains three historical
variants of the library:

* part_005 (package mat64, the primary variant) — embedded in namespace M05;
* part_004 (package mat64, copy-returning arithmetic) — namespace M04;
* part_006 (package mat64, the "Numgo/mat" variant) — namespace M06.

Modelling conventions:

* Go float64 values are modelled by an abstract value type alpha (usually
  instantiated at the rationals); rounding of individual IEEE operations is
  abstracted, which is faithful for the structural claims proved here (which
  element combines with which, what is checked, what is mutated).  Claims
  about IEEE NaN equality use the dedicated type F64 below.
* Go slices are Lean lists; slice capacity is not modelled (only length is
  observable through the API).  Copying a slice is the identity on the list
  value.
* The library aborts the process (os.Exit(1)) on every contract violation;
  per the specification these aborts are modelled as error results with the
  spec's error kinds (Except MatError).  An error result means the operation
  did not complete: no mutated receiver state is produced.
* In-place mutation of a receiver is modelled by returning the receiver's
  state after the call.  Where the distinction between "receiver state after
  the call" and "returned mat" matters, a method is embedded as returning
  the pair (receiver state after the call, returned mat).
* Go indexing m.vals[i] is modelled by List.getD i 0; out-of-range access
  panics in Go while getD returns 0; all theorems only exercise in-range
  accesses, where the two coincide.
-/

/-- Error kinds of the specification's error taxonomy; each os.Exit(1) site
of the source is mapped to its kind. -/
inductive MatError where
  | ShapeMismatch : MatError
  | IndexOutOfRange : MatError
  | InvalidArgument : MatError
  | DivisionByZero : MatError
deriving DecidableEq, Repr

deriving instance DecidableEq for Except

/-- The Mat struct of all three variants: row count r, column count c, and
the flat backing slice vals (row-major). -/
@[ext] structure Mat (α : Type) where
  r : Nat
  c : Nat
  vals : List α
deriving DecidableEq, Repr

/-- The shape invariant of the spec: len(vals) == rows*cols. -/
def Mat.WF {α : Type} (m : Mat α) : Prop := m.vals.length = m.r * m.c

instance {α : Type} (m : Mat α) : Decidable (Mat.WF m) := by
  unfold Mat.WF; infer_instance

/-- Embedding of a Go write loop `for j := 0; j < k; j++ { l[base+j] = f(j, l[base+j]) }`:
each iteration overwrites position base+j, reading the current value there
(for accumulating writes such as +=). -/
def writeRow {α : Type} [Zero α] (base k : Nat) (f : Nat → α → α) (init : List α) : List α :=
  (List.range k).foldl (fun v j => v.set (base + j) (f j (v.getD (base + j) 0))) init

/-- Embedding of the doubly nested write loop
`for i < R { for j < C { l[i*C+j] = f(i, j, l[i*C+j]) } }`. -/
def write2acc {α : Type} [Zero α] (R C : Nat) (f : Nat → Nat → α → α) (init : List α) : List α :=
  (List.range R).foldl (fun v i => writeRow (i * C) C (f i) v) init

/-- Embedding of the FromData copy loop of part_005
`for i := range v { for j := range v[i] { vals[i*c0+j] = v[i][j] } }`
(the inner bound is each row's own length, so jagged input is representable). -/
def flatten2D {α : Type} [Zero α] (c0 : Nat) (v : List (List α)) (init : List α) : List α :=
  (List.range v.length).foldl
    (fun w i => writeRow (i * c0) (v.getD i []).length (fun j _ => (v.getD i []).getD j 0) w)
    init

/-! ## part_005 (primary mat64 package) -/

namespace M05

/-- New() of part_005: zero rows, cols, empty backing slice. -/
def New0 {α : Type} : Mat α := ⟨0, 0, []⟩

/-- New(x) of part_005: x by x matrix, slice length x*x (capacity 2*x*x is
not observable and not modelled). -/
def New1 {α : Type} [Zero α] (x : Nat) : Mat α := ⟨x, x, List.replicate (x * x) 0⟩

/-- New(x, y) of part_005: x by y matrix, slice length x*y. -/
def New2 {α : Type} [Zero α] (x y : Nat) : Mat α := ⟨x, y, List.replicate (x * y) 0⟩

/-- New(x, y, z) of part_005: x by y matrix, slice length x*y, capacity z
(capacity not modelled). -/
def New3 {α : Type} [Zero α] (x y _z : Nat) : Mat α := ⟨x, y, List.replicate (x * y) 0⟩

/-- At of part_005 (identical in part_004/part_006): m.vals[r*m.c+c]. -/
def At {α : Type} [Zero α] (m : Mat α) (r c : Nat) : α := m.vals.getD (r * m.c + c) 0

/-- Set of part_005 lines 589-592 (identical in part_004 lines 357-360):
the source writes m.vals[r*m.r+c] — the linear index is computed with the
ROW count as stride, not the column count used by At. -/
def Set {α : Type} (m : Mat α) (r c : Nat) (val : α) : Mat α :=
  { m with vals := m.vals.set (r * m.r + c) val }

/-- SetAll of part_005: overwrites every element with val. -/
def SetAll {α : Type} (m : Mat α) (val : α) : Mat α :=
  { m with vals := m.vals.map (fun _ => val) }

/-- Foreach of part_005: applies f to every element in place, in row-major
linear order. -/
def Foreach {α : Type} (m : Mat α) (f : α → α) : Mat α :=
  { m with vals := m.vals.map f }

/-- Vals of part_005: a copy of the backing slice (copying is the identity
on the list value). -/
def Vals {α : Type} (m : Mat α) : List α := m.vals

/-- ToSlice of part_005: fresh nested slices with s[i][j] = m.vals[i*m.c+j]. -/
def ToSlice {α : Type} [Zero α] (m : Mat α) : List (List α) :=
  (List.range m.r).map (fun i => (List.range m.c).map (fun j => m.vals.getD (i * m.c + j) 0))

/-- Copy of part_005 (identical in part_004): n := New(m.r, m.c) followed by
copy(n.vals, m.vals), which copies min(m.r*m.c, len(m.vals)) values and
leaves the rest of the fresh buffer zero. -/
def Copy {α : Type} [Zero α] (m : Mat α) : Mat α :=
  ⟨m.r, m.c, m.vals.take (m.r * m.c) ++
    List.replicate (m.r * m.c - min (m.r * m.c) m.vals.length) 0⟩

/-- T of part_005 lines 690-700: n := New(m.c, m.r); a counter idx starts at
0 and increments once per inner iteration of
for i < m.c { for j < m.r { n.vals[idx] = m.vals[j*m.c+i]; idx++ } },
so the (i, j) iteration writes position idx = i*m.r + j. -/
def T {α : Type} [Zero α] (m : Mat α) : Mat α :=
  ⟨m.c, m.r,
    write2acc m.c m.r (fun i j _ => m.vals.getD (j * m.c + i) 0)
      (List.replicate (m.c * m.r) 0)⟩

/-- Col of part_005 lines 599-621: index x in [-m.c, m.c) (Go int, modelled
as Int); v := New(m.r, 1); non-negative x reads column x, negative x reads
column m.c+x. -/
def Col {α : Type} [Zero α] (m : Mat α) (x : Int) : Except MatError (Mat α) :=
  if x ≥ (m.c : Int) ∨ x < -(m.c : Int) then .error .IndexOutOfRange
  else if x ≥ 0 then
    .ok ⟨m.r, 1, writeRow 0 m.r (fun r _ => m.vals.getD (r * m.c + x.toNat) 0)
        (List.replicate (m.r * 1) 0)⟩
  else
    .ok ⟨m.r, 1, writeRow 0 m.r (fun r _ => m.vals.getD (r * m.c + ((m.c : Int) + x).toNat) 0)
        (List.replicate (m.r * 1) 0)⟩

/-- Row of part_005 lines 628-655: index x in [-m.r, m.r); v := New(1, m.c). -/
def Row {α : Type} [Zero α] (m : Mat α) (x : Int) : Except MatError (Mat α) :=
  if x ≥ (m.r : Int) ∨ x < -(m.r : Int) then .error .IndexOutOfRange
  else if x ≥ 0 then
    .ok ⟨1, m.c, writeRow 0 m.c (fun j _ => m.vals.getD (x.toNat * m.c + j) 0)
        (List.replicate (1 * m.c) 0)⟩
  else
    .ok ⟨1, m.c, writeRow 0 m.c (fun j _ => m.vals.getD (((m.r : Int) + x).toNat * m.c + j) 0)
        (List.replicate (1 * m.c) 0)⟩

/-- Equals of part_005 lines 657-670: rows equal, cols equal, and every
linear index i < m.r*m.c compares equal under the element equality (==,
which for IEEE values is exact floating-point equality). -/
def Equals {α : Type} [BEq α] [Zero α] (m n : Mat α) : Bool :=
  m.r == n.r && m.c == n.c &&
    (List.range (m.r * m.c)).all (fun i => m.vals.getD i 0 == n.vals.getD i 0)

/-- All of part_005: f holds of every element (short-circuiting). -/
def All {α : Type} (m : Mat α) (f : α → Bool) : Bool := m.vals.all f

/-- Any of part_005 (identical in part_006): f holds of some element. -/
def Any {α : Type} (m : Mat α) (f : α → Bool) : Bool := m.vals.any f

/-- Reshape of part_005 lines 464-483: requires rows*cols == m.r*m.c, else
ShapeMismatch; on success only the dimensions change. -/
def Reshape {α : Type} (m : Mat α) (rows cols : Nat) : Except MatError (Mat α) :=
  if rows * cols ≠ m.r * m.c then .error .ShapeMismatch
  else .ok ⟨rows, cols, m.vals⟩

/-- FromData(v) of part_005 with a 1D slice and no ints: 1 by len(v). -/
def FromData1D0 {α : Type} (v : List α) : Mat α := ⟨1, v.length, v⟩

/-- FromData(v, a) of part_005, 1D data: requires a == len(v) (else
ShapeMismatch); column vector a by 1. -/
def FromData1D1 {α : Type} (v : List α) (a : Nat) : Except MatError (Mat α) :=
  if a ≠ v.length then .error .ShapeMismatch
  else .ok ⟨a, 1, v⟩

/-- FromData(v, a, b) of part_005, 1D data: requires a*b == len(v) (else
ShapeMismatch); a by b mat with the same values. -/
def FromData1D2 {α : Type} (v : List α) (a b : Nat) : Except MatError (Mat α) :=
  if a * b ≠ v.length then .error .ShapeMismatch
  else .ok ⟨a, b, v⟩

/-- FromData(v) of part_005 with a 2D slice and no ints: buffer of length
len(v)*len(v[0]) filled by vals[i*len(v[0])+j] = v[i][j]; dims are
(len(v), len(v[0])). -/
def FromData2D0 {α : Type} [Zero α] (v : List (List α)) : Mat α :=
  ⟨v.length, (v.getD 0 []).length,
    flatten2D (v.getD 0 []).length v
      (List.replicate (v.length * (v.getD 0 []).length) 0)⟩

/-- FromData(v, a) of part_005 with a 2D slice, lines 237-265: the source
checks dims[0]*2 != len(v)*len(v[0]) (although its own error message and
doc comment describe an a by a result requiring a*a elements), allocates a
buffer of length dims[0]*dims[0], fills it by vals[i*len(v[0])+j] = v[i][j],
and sets the dims to (len(v), len(v[0])) — not (a, a). -/
def FromData2D1 {α : Type} [Zero α] (v : List (List α)) (a : Nat) :
    Except MatError (Mat α) :=
  if a * 2 ≠ v.length * (v.getD 0 []).length then .error .ShapeMismatch
  else .ok ⟨v.length, (v.getD 0 []).length,
    flatten2D (v.getD 0 []).length v (List.replicate (a * a) 0)⟩

/-- FromData(v, a, b) of part_005 with a 2D slice: the source requires
dims[0] == len(v) AND dims[1] == len(v[0]) (not merely a*b == total count);
buffer length a*b; dims are (len(v), len(v[0])). -/
def FromData2D2 {α : Type} [Zero α] (v : List (List α)) (a b : Nat) :
    Except MatError (Mat α) :=
  if a ≠ v.length ∨ b ≠ (v.getD 0 []).length then .error .ShapeMismatch
  else .ok ⟨v.length, (v.getD 0 []).length,
    flatten2D (v.getD 0 []).length v (List.replicate (a * b) 0)⟩

/-- Add of part_005 lines 802-848, *Mat operand case.  The method checks the
operand's rows then cols against the receiver (ShapeMismatch on either),
then runs for i := range m.vals { m.vals[i] += v.vals[i] }, mutating the
receiver in place, and returns the receiver.  The result pair is (receiver
state after the call, returned mat): both are the combined mat. -/
def AddMat {α : Type} [Add α] (m v : Mat α) : Except MatError (Mat α × Mat α) :=
  if v.r ≠ m.r then .error .ShapeMismatch
  else if v.c ≠ m.c then .error .ShapeMismatch
  else
    .ok ({ m with vals := List.zipWith (· + ·) m.vals v.vals },
         { m with vals := List.zipWith (· + ·) m.vals v.vals })

/-- Add of part_005, float64 operand case: broadcast to every element,
mutating the receiver (returned mat = receiver state). -/
def AddScalar {α : Type} [Add α] (m : Mat α) (v : α) : Mat α :=
  { m with vals := m.vals.map (· + v) }

/-- Sub of part_005 lines 850-896, *Mat operand case (see AddMat). -/
def SubMat {α : Type} [Sub α] (m v : Mat α) : Except MatError (Mat α × Mat α) :=
  if v.r ≠ m.r then .error .ShapeMismatch
  else if v.c ≠ m.c then .error .ShapeMismatch
  else
    .ok ({ m with vals := List.zipWith (· - ·) m.vals v.vals },
         { m with vals := List.zipWith (· - ·) m.vals v.vals })

/-- Sub of part_005, float64 operand case. -/
def SubScalar {α : Type} [Sub α] (m : Mat α) (v : α) : Mat α :=
  { m with vals := m.vals.map (· - v) }

/-- Mul of part_005 lines 754-800, *Mat operand case (see AddMat). -/
def MulMat {α : Type} [Mul α] (m v : Mat α) : Except MatError (Mat α × Mat α) :=
  if v.r ≠ m.r then .error .ShapeMismatch
  else if v.c ≠ m.c then .error .ShapeMismatch
  else
    .ok ({ m with vals := List.zipWith (· * ·) m.vals v.vals },
         { m with vals := List.zipWith (· * ·) m.vals v.vals })

/-- Mul of part_005, float64 operand case. -/
def MulScalar {α : Type} [Mul α] (m : Mat α) (v : α) : Mat α :=
  { m with vals := m.vals.map (· * v) }

/-- Div of part_005 lines 898-944, *Mat operand case: after the two shape
checks it runs for i := range m.vals { m.vals[i] /= v.vals[i] } directly —
there is NO zero-divisor check in this variant. -/
def DivMat {α : Type} [Div α] (m v : Mat α) : Except MatError (Mat α × Mat α) :=
  if v.r ≠ m.r then .error .ShapeMismatch
  else if v.c ≠ m.c then .error .ShapeMismatch
  else
    .ok ({ m with vals := List.zipWith (· / ·) m.vals v.vals },
         { m with vals := List.zipWith (· / ·) m.vals v.vals })

/-- Div of part_005, float64 operand case. -/
def DivScalar {α : Type} [Div α] (m : Mat α) (v : α) : Mat α :=
  { m with vals := m.vals.map (· / v) }

/-- Dot of part_005 lines 1218-1240: requires m.c == n.r (else
ShapeMismatch); o := New(m.r, n.c) (all zeros), then
for i < m.r { for j < n.c { for k < m.c { o.vals[i*o.c+j] += m.vals[i*m.c+k] * n.vals[k*n.c+j] } } };
the innermost loop accumulates onto the current value of cell (i, j). -/
def Dot {α : Type} [Zero α] [Add α] [Mul α] (m n : Mat α) : Except MatError (Mat α) :=
  if m.c ≠ n.r then .error .ShapeMismatch
  else .ok ⟨m.r, n.c,
    write2acc m.r n.c
      (fun i j cur => (List.range m.c).foldl
        (fun acc k => acc + m.vals.getD (i * m.c + k) 0 * n.vals.getD (k * n.c + j) 0) cur)
      (List.replicate (m.r * n.c) 0)⟩

/-- AppendRow of part_005 lines 1303-1340: requires m.c == len(v); both the
reallocating and the in-place branch leave vals = old vals followed by v,
and increment r. -/
def AppendRow {α : Type} (m : Mat α) (v : List α) : Except MatError (Mat α) :=
  if m.c ≠ v.length then .error .ShapeMismatch
  else .ok { m with r := m.r + 1, vals := m.vals ++ v }

/-- AppendCol of part_005 lines 1272-1298: requires m.r == len(v);
q := m.ToSlice(); each q[i] gets v[i] appended; c is incremented; v is
appended to the buffer (growing it to m.r*(m.c+1) values); then every
position i*c+j of the grown buffer is overwritten with q[i][j]. -/
def AppendCol {α : Type} [Zero α] (m : Mat α) (v : List α) : Except MatError (Mat α) :=
  if m.r ≠ v.length then .error .ShapeMismatch
  else
    .ok { m with
            c := m.c + 1
            vals := write2acc m.r (m.c + 1)
              (fun i j _ =>
                ((List.zipWith (fun row x => row ++ [x]) (ToSlice m) v).getD i []).getD j 0)
              (m.vals ++ v) }

/-- Concat of part_005 lines 1342-1368: requires m.r == n.r;
q := m.ToSlice(); t := n.Vals(); r2 := n.ToSlice(); n's values are appended
to the buffer; each q[i] gets r2[i] appended; c grows by n.c; then every
position i*c+j of the grown buffer is overwritten with q[i][j]. -/
def Concat {α : Type} [Zero α] (m n : Mat α) : Except MatError (Mat α) :=
  if m.r ≠ n.r then .error .ShapeMismatch
  else
    .ok { m with
            c := m.c + n.c
            vals := write2acc m.r (m.c + n.c)
              (fun i j _ =>
                ((List.zipWith (fun a b => a ++ b) (ToSlice m) (ToSlice n)).getD i []).getD j 0)
              (m.vals ++ Vals n) }

/-- Avg of part_005, zero-argument form: sum of all values divided by
len(m.vals). -/
def Avg0 {α : Type} [Field α] (m : Mat α) : α :=
  (m.vals.foldl (· + ·) 0) / (m.vals.length : α)

/-- Avg of part_005, (axis, slice) form, lines 1008-1070: axis 0 averages
row slice over m.c values, axis 1 averages column slice over m.r values;
bad slice is IndexOutOfRange, bad axis InvalidArgument. -/
def Avg2 {α : Type} [Field α] (m : Mat α) (axis slice : Int) : Except MatError α :=
  if axis = 0 then
    if slice ≥ (m.r : Int) ∨ slice < 0 then .error .IndexOutOfRange
    else .ok (((List.range m.c).foldl
      (fun sum i => sum + m.vals.getD (slice.toNat * m.c + i) 0) 0) / (m.c : α))
  else if axis = 1 then
    if slice ≥ (m.c : Int) ∨ slice < 0 then .error .IndexOutOfRange
    else .ok (((List.range m.r).foldl
      (fun sum i => sum + m.vals.getD (i * m.c + slice.toNat) 0) 0) / (m.r : α))
  else .error .InvalidArgument

/-- Std of part_005, zero-argument form: two-pass; sqrt of the sum of
squared deviations divided by len(m.vals). -/
def Std0 {α : Type} [Field α] (sqrt : α → α) (m : Mat α) : α :=
  sqrt ((m.vals.foldl (fun s x => s + (Avg0 m - x) * (Avg0 m - x)) 0) / (m.vals.length : α))

/-- Std of part_005, (axis, slice) form, lines 1133-1201 (identical in
part_004 lines 907-981): after the bound check, avg := m.Avg(axis, slice);
the sum of squared deviations runs over the m.c values of the row (axis 0)
or the m.r values of the column (axis 1); but the returned value is
math.Sqrt(sum / float64(len(m.vals))) — the divisor is the TOTAL element
count in both axis cases, not the slice length. -/
def Std2 {α : Type} [Field α] (sqrt : α → α) (m : Mat α) (axis slice : Int) :
    Except MatError α :=
  if axis = 0 then
    if slice ≥ (m.r : Int) ∨ slice < 0 then .error .IndexOutOfRange
    else
      match Avg2 m axis slice with
      | .error e => .error e
      | .ok avg => .ok (sqrt (((List.range m.c).foldl
          (fun s i => s + (avg - m.vals.getD (slice.toNat * m.c + i) 0) *
            (avg - m.vals.getD (slice.toNat * m.c + i) 0)) 0) / (m.vals.length : α)))
  else if axis = 1 then
    if slice ≥ (m.c : Int) ∨ slice < 0 then .error .IndexOutOfRange
    else
      match Avg2 m axis slice with
      | .error e => .error e
      | .ok avg => .ok (sqrt (((List.range m.r).foldl
          (fun s i => s + (avg - m.vals.getD (i * m.c + slice.toNat) 0) *
            (avg - m.vals.getD (i * m.c + slice.toNat) 0)) 0) / (m.vals.length : α)))
  else .error .InvalidArgument

end M05

/-! ## part_004 (copy-returning arithmetic variant) -/

namespace M04

/-- Add of part_004 lines 616-657, *Mat operand case.  This variant begins
with n := m.Copy(); the shape checks compare the operand against the copy;
the element-wise loop updates the copy; the copy is returned and the
receiver is never written.  Result pair: (receiver state after the call —
the unchanged m — , returned mat). -/
def AddMat {α : Type} [Add α] [Zero α] (m v : Mat α) : Except MatError (Mat α × Mat α) :=
  if v.r ≠ (M05.Copy m).r then .error .ShapeMismatch
  else if v.c ≠ (M05.Copy m).c then .error .ShapeMismatch
  else .ok (m, { M05.Copy m with vals := List.zipWith (· + ·) (M05.Copy m).vals v.vals })

/-- Sub of part_004 lines 659-700, *Mat operand case (see AddMat). -/
def SubMat {α : Type} [Sub α] [Zero α] (m v : Mat α) : Except MatError (Mat α × Mat α) :=
  if v.r ≠ (M05.Copy m).r then .error .ShapeMismatch
  else if v.c ≠ (M05.Copy m).c then .error .ShapeMismatch
  else .ok (m, { M05.Copy m with vals := List.zipWith (· - ·) (M05.Copy m).vals v.vals })

/-- Mul of part_004 lines 573-614, *Mat operand case (see AddMat). -/
def MulMat {α : Type} [Mul α] [Zero α] (m v : Mat α) : Except MatError (Mat α × Mat α) :=
  if v.r ≠ (M05.Copy m).r then .error .ShapeMismatch
  else if v.c ≠ (M05.Copy m).c then .error .ShapeMismatch
  else .ok (m, { M05.Copy m with vals := List.zipWith (· * ·) (M05.Copy m).vals v.vals })

/-- Div of part_004 lines 702-743, *Mat operand case (see AddMat; like
part_005, this variant has no zero-divisor check). -/
def DivMat {α : Type} [Div α] [Zero α] (m v : Mat α) : Except MatError (Mat α × Mat α) :=
  if v.r ≠ (M05.Copy m).r then .error .ShapeMismatch
  else if v.c ≠ (M05.Copy m).c then .error .ShapeMismatch
  else .ok (m, { M05.Copy m with vals := List.zipWith (· / ·) (M05.Copy m).vals v.vals })

end M04

/-! ## part_006 (the "Numgo/mat" variant) -/

namespace M06

/-- Div of part_006 lines 685-728: after the two shape checks, the divisor
is scanned with n.Any(zero) where zero tests *i == 0.0; if any divisor
element is exactly zero the call fails (DivisionByZero) BEFORE any element
is divided; otherwise for i < m.r*m.c { m.vals[i] /= n.vals[i] } mutates
the receiver, which is returned.  Result pair as in M05.AddMat. -/
def Div {α : Type} [Div α] [Zero α] [BEq α] (m n : Mat α) :
    Except MatError (Mat α × Mat α) :=
  if m.r ≠ n.r then .error .ShapeMismatch
  else if m.c ≠ n.c then .error .ShapeMismatch
  else if M05.Any n (fun x => x == 0) then .error .DivisionByZero
  else
    .ok ({ m with vals := writeRow 0 (m.r * m.c) (fun i cur => cur / n.vals.getD i 0) m.vals },
         { m with vals := writeRow 0 (m.r * m.c) (fun i cur => cur / n.vals.getD i 0) m.vals })

/-- precheckedSum of part_006 lines 788-811: row sum for axis 0, column sum
for axis 1, and 0.0 for any other axis. -/
def precheckedSum {α : Type} [Add α] [Zero α] (m : Mat α) (axis slice : Int) : α :=
  if axis = 0 then
    (List.range m.c).foldl (fun x i => x + m.vals.getD (slice.toNat * m.c + i) 0) 0
  else if axis = 1 then
    (List.range m.r).foldl (fun x i => x + m.vals.getD (i * m.c + slice.toNat) 0) 0
  else 0

/-- precheckedAverage of part_006 lines 848-854: precheckedSum divided by
m.c (axis 0) or m.r (axis 1). -/
def precheckedAverage {α : Type} [Field α] (m : Mat α) (axis slice : Int) : α :=
  if axis = 0 then precheckedSum m axis slice / (m.c : α)
  else precheckedSum m axis slice / (m.r : α)

/-- Std of part_006 lines 924-976: axis must be 0 or 1 (else
InvalidArgument), slice bound-checked per axis (else IndexOutOfRange);
avg := m.precheckedAverage(axis, slice); s[i] := (avg - value)^2 over the
m.c values of the row (axis 0) or the m.r values of the column (axis 1);
the result is math.Sqrt(sum(s) / float64(len(s))) — the divisor is the
SLICE length, unlike part_005's Std. -/
def Std {α : Type} [Field α] (sqrt : α → α) (m : Mat α) (axis slice : Int) :
    Except MatError α :=
  if axis ≠ 0 ∧ axis ≠ 1 then .error .InvalidArgument
  else if axis = 0 ∧ (slice ≥ (m.r : Int) ∨ slice < 0) then .error .IndexOutOfRange
  else if axis = 1 ∧ (slice ≥ (m.c : Int) ∨ slice < 0) then .error .IndexOutOfRange
  else
    if axis = 0 then
      .ok (sqrt ((((List.range m.c).map (fun i =>
          (precheckedAverage m axis slice - m.vals.getD (slice.toNat * m.c + i) 0) *
          (precheckedAverage m axis slice - m.vals.getD (slice.toNat * m.c + i) 0))).foldl
            (· + ·) 0) / (m.c : α)))
    else
      .ok (sqrt ((((List.range m.r).map (fun i =>
          (precheckedAverage m axis slice - m.vals.getD (i * m.c + slice.toNat) 0) *
          (precheckedAverage m axis slice - m.vals.getD (i * m.c + slice.toNat) 0))).foldl
            (· + ·) 0) / (m.r : α)))

end M06

/-! ## IEEE float64 equality model -/

/-- Model of float64 for claims about IEEE equality: a value is NaN or a
finite value (represented exactly by a rational; infinities are not needed
by any claim and behave like ordinary non-NaN values under equality). -/
inductive F64 where
  | nan : F64
  | num : ℚ → F64
deriving DecidableEq, Repr

instance : Zero F64 := ⟨F64.num 0⟩

/-- IEEE == on float64: NaN compares unequal to everything, itself
included; finite values compare by exact value. -/
def F64.ieeeEq : F64 → F64 → Bool
  | .num a, .num b => a == b
  | _, _ => false

instance : BEq F64 := ⟨F64.ieeeEq⟩

/-! ## Spec-side definitions (for comparison against the code's Std) -/

/-- Spec formula: the mean of row i (sum of its cols entries over cols). -/
noncomputable def specMeanRow (m : Mat ℝ) (i : Nat) : ℝ :=
  (((List.range m.c).map (fun j => M05.At m i j)).foldl (· + ·) 0) / (m.c : ℝ)

/-- Spec formula of claim C4 for the axis-0 slice: population standard
deviation of row i — sqrt of the mean of squared deviations taken over
exactly the cols entries of that row. -/
noncomputable def specStdRow (m : Mat ℝ) (i : Nat) : ℝ :=
  Real.sqrt ((((List.range m.c).map
    (fun j => (M05.At m i j - specMeanRow m i) * (M05.At m i j - specMeanRow m i))).foldl
      (· + ·) 0) / (m.c : ℝ))

/-- Spec formula: the mean of the whole matrix. -/
noncomputable def specMeanWhole (m : Mat ℝ) : ℝ :=
  (m.vals.foldl (· + ·) 0) / ((m.r * m.c : ℕ) : ℝ)

/-- Spec formula of claim C4 for the zero-argument form: population standard
deviation over all rows*cols elements. -/
noncomputable def specStdWhole (m : Mat ℝ) : ℝ :=
  Real.sqrt (((m.vals.map
    (fun x => (x - specMeanWhole m) * (x - specMeanWhole m))).foldl (· + ·) 0) /
      ((m.r * m.c : ℕ) : ℝ))

theorem getD_set_ne {α : Type} (l : List α) (i p : Nat) (a d : α) (h : i ≠ p) :
    (l.set i a).getD p d = l.getD p d := by
  simp [List.getD_eq_getElem?_getD, List.getElem?_set_ne h]

theorem getD_set_self {α : Type} (l : List α) (i : Nat) (a d : α) (h : i < l.length) :
    (l.set i a).getD i d = a := by
  simp [List.getD_eq_getElem?_getD, List.getElem?_set_self h]

theorem length_foldl_set {α β : Type} (g : List α → β → List α)
    (h : ∀ w b, (g w b).length = w.length) :
    ∀ (l : List β) (init : List α), (l.foldl g init).length = init.length := by
  intro l
  induction l with
  | nil => intro init; rfl
  | cons b t ih => intro init; simp only [List.foldl_cons, ih, h]

theorem length_writeRow {α : Type} [Zero α] (base k : Nat) (f : Nat → α → α) (init : List α) :
    (writeRow base k f init).length = init.length := by
  unfold writeRow
  exact length_foldl_set _ (fun w j => List.length_set w _ _) _ _

theorem writeRow_succ {α : Type} [Zero α] (base k : Nat) (f : Nat → α → α) (init : List α) :
    writeRow base (k + 1) f init =
      (writeRow base k f init).set (base + k)
        (f k ((writeRow base k f init).getD (base + k) 0)) := by
  unfold writeRow
  rw [List.range_succ, List.foldl_append]
  rfl

theorem getD_writeRow_out {α : Type} [Zero α] (base k : Nat) (f : Nat → α → α)
    (init : List α) (p : Nat) (h : p < base ∨ base + k ≤ p) :
    (writeRow base k f init).getD p 0 = init.getD p 0 := by
  induction k with
  | zero => rfl
  | succ k ih =>
    rw [writeRow_succ, getD_set_ne]
    · exact ih (h.imp id (fun hk => le_trans (by omega) hk))
    · omega

theorem getD_writeRow_in {α : Type} [Zero α] (base k : Nat) (f : Nat → α → α)
    (init : List α) (j : Nat) (hj : j < k) (hlen : base + j < init.length) :
    (writeRow base k f init).getD (base + j) 0 = f j (init.getD (base + j) 0) := by
  induction k with
  | zero => omega
  | succ k ih =>
    rw [writeRow_succ]
    rcases Nat.lt_or_ge j k with hjk | hjk
    · rw [getD_set_ne]
      · exact ih hjk
      · omega
    · have hjeq : j = k := by omega
      subst hjeq
      rw [getD_set_self]
      · rw [getD_writeRow_out]
        right; omega
      · rw [length_writeRow]; exact hlen

theorem length_write2acc {α : Type} [Zero α] (R C : Nat) (f : Nat → Nat → α → α)
    (init : List α) : (write2acc R C f init).length = init.length := by
  unfold write2acc
  exact length_foldl_set _ (fun w i => length_writeRow _ _ _ _) _ _

theorem write2acc_succ {α : Type} [Zero α] (R C : Nat) (f : Nat → Nat → α → α)
    (init : List α) :
    write2acc (R + 1) C f init = writeRow (R * C) C (f R) (write2acc R C f init) := by
  unfold write2acc
  rw [List.range_succ, List.foldl_append]
  rfl

theorem getD_write2acc_ge {α : Type} [Zero α] (R C : Nat) (f : Nat → Nat → α → α)
    (init : List α) (p : Nat) (h : R * C ≤ p) :
    (write2acc R C f init).getD p 0 = init.getD p 0 := by
  induction R with
  | zero => rfl
  | succ R ih =>
    have hRC : (R + 1) * C = R * C + C := Nat.succ_mul R C
    rw [write2acc_succ, getD_writeRow_out]
    · exact ih (by omega)
    · right; omega

theorem getD_write2acc {α : Type} [Zero α] (R C : Nat) (f : Nat → Nat → α → α)
    (init : List α) (i j : Nat) (hi : i < R) (hj : j < C)
    (hlen : i * C + j < init.length) :
    (write2acc R C f init).getD (i * C + j) 0 = f i j (init.getD (i * C + j) 0) := by
  induction R with
  | zero => omega
  | succ R ih =>
    rw [write2acc_succ]
    rcases Nat.lt_or_ge i R with hiR | hiR
    · rw [getD_writeRow_out]
      · exact ih hiR
      · left
        have h2 : (i + 1) * C ≤ R * C := Nat.mul_le_mul_right C hiR
        have h3 : (i + 1) * C = i * C + C := Nat.succ_mul i C
        omega
    · have hieq : i = R := by omega
      subst hieq
      rw [getD_writeRow_in]
      · rw [getD_write2acc_ge]
        exact Nat.le_add_right _ _
      · exact hj
      · rw [length_write2acc]; exact hlen

/-! ## Supporting lemmas -/

theorem getD_replicate_zero {α : Type} [Zero α] (n p : Nat) :
    (List.replicate n (0 : α)).getD p 0 = 0 := by
  rcases Nat.lt_or_ge p n with h | h
  · rw [List.getD_eq_getElem _ _ (by simpa using h)]
    simp
  · rw [List.getD_eq_default _ _ (by simpa using h)]

theorem getD_eq_getElem_of_lt {α : Type} (l : List α) (d : α) (p : Nat) (h : p < l.length) :
    l.getD p d = l[p] := List.getD_eq_getElem l d h

/-- Values written by T: for i < m.c and j < m.r, the transposed buffer
holds the source value of cell (j, i) at position i*m.r + j. -/
theorem M05.T_vals_getD {α : Type} [Zero α] (m : Mat α) (i j : Nat)
    (hi : i < m.c) (hj : j < m.r) :
    (M05.T m).vals.getD (i * m.r + j) 0 = m.vals.getD (j * m.c + i) 0 := by
  unfold M05.T
  simp only
  have hlen : i * m.r + j < (List.replicate (m.c * m.r) (0 : α)).length := by
    rw [List.length_replicate]
    calc i * m.r + j < i * m.r + m.r := by omega
    _ = (i + 1) * m.r := (Nat.succ_mul i m.r).symm
    _ ≤ m.c * m.r := Nat.mul_le_mul_right m.r hi
  rw [getD_write2acc _ _ _ _ i j hi hj hlen]

theorem M05.T_r {α : Type} [Zero α] (m : Mat α) : (M05.T m).r = m.c := rfl

theorem M05.T_c {α : Type} [Zero α] (m : Mat α) : (M05.T m).c = m.r := rfl

theorem M05.T_length {α : Type} [Zero α] (m : Mat α) :
    (M05.T m).vals.length = m.c * m.r := by
  unfold M05.T
  simp only
  rw [length_write2acc, List.length_replicate]

/-- At over the transpose. -/
theorem M05.T_At {α : Type} [Zero α] (m : Mat α) (i j : Nat)
    (hi : i < m.r) (hj : j < m.c) :
    M05.At (M05.T m) j i = M05.At m i j := by
  unfold M05.At
  rw [M05.T_c]
  exact M05.T_vals_getD m j i hj hi

/-- Double transposition restores the Mat value exactly, for any well-formed
Mat (NaN-valued entries included, since this is equality of the stored
values, not the IEEE comparison). -/
theorem M05.T_T {α : Type} [Zero α] (m : Mat α) (hm : m.WF) :
    M05.T (M05.T m) = m := by
  have hlen : (M05.T (M05.T m)).vals.length = m.vals.length := by
    rw [M05.T_length, M05.T_r, M05.T_c, hm, Nat.mul_comm]
  apply Mat.ext
  · rfl
  · rfl
  · apply List.ext_getElem hlen
    intro p h1 h2
    have hp : p < m.r * m.c := by rw [← hm]; exact h2
    have hc0 : 0 < m.c := by
      by_contra h
      have hz : m.c = 0 := by omega
      rw [hz, Nat.mul_zero] at hp
      omega
    have hj : p % m.c < m.c := Nat.mod_lt _ hc0
    have hp' : p < m.c * m.r := by rw [Nat.mul_comm m.c m.r]; exact hp
    have hi : p / m.c < m.r := Nat.div_lt_of_lt_mul hp'
    have hdecomp : p = p / m.c * m.c + p % m.c := by
      rw [Nat.mul_comm]
      exact (Nat.div_add_mod p m.c).symm
    rw [← getD_eq_getElem_of_lt _ 0 _ h1, ← getD_eq_getElem_of_lt _ 0 _ h2]
    rw [hdecomp]
    have step1 := M05.T_vals_getD (M05.T m) (p / m.c) (p % m.c)
      (by rw [M05.T_c]; exact hi) (by rw [M05.T_r]; exact hj)
    rw [M05.T_r, M05.T_c] at step1
    rw [step1]
    exact M05.T_vals_getD m (p % m.c) (p / m.c) hj hi

/-- Equals unfolded to its three conditions. -/
theorem M05.Equals_iff {α : Type} [BEq α] [Zero α] (m n : Mat α) :
    M05.Equals m n = true ↔
      m.r = n.r ∧ m.c = n.c ∧
        ∀ i < m.r * m.c, (m.vals.getD i 0 == n.vals.getD i 0) = true := by
  unfold M05.Equals
  simp only [Bool.and_eq_true, List.all_eq_true, List.mem_range, Nat.beq_eq_true_eq]
  tauto

/-- IEEE self-equality holds exactly for non-NaN values. -/
theorem F64.ieeeEq_self_iff (x : F64) : (x == x) = true ↔ x ≠ F64.nan := by
  cases x <;> simp [BEq.beq, F64.ieeeEq]

/-- Reflexivity of Equals holds exactly when the mat holds no NaN. -/
theorem M05.Equals_self_iff (m : Mat F64) (hm : m.WF) :
    M05.Equals m m = true ↔ F64.nan ∉ m.vals := by
  rw [M05.Equals_iff]
  constructor
  · rintro ⟨-, -, h⟩ hmem
    obtain ⟨i, hlt, hget⟩ := List.mem_iff_getElem.mp hmem
    have hi : i < m.r * m.c := by rw [← hm]; exact hlt
    have := h i hi
    rw [getD_eq_getElem_of_lt _ _ _ hlt, hget] at this
    simp [BEq.beq, F64.ieeeEq] at this
  · intro hnot
    refine ⟨rfl, rfl, fun i hi => ?_⟩
    have hlt : i < m.vals.length := by rw [hm]; exact hi
    rw [getD_eq_getElem_of_lt _ _ _ hlt]
    rw [F64.ieeeEq_self_iff]
    intro hEq
    exact hnot (hEq ▸ List.getElem_mem hlt)

/-- Characterization of Col on an in-range index: an owned m.r by 1 mat
whose entry at row i is the source entry at the selected column. -/
theorem M05.Col_in_range {α : Type} [Zero α] (m : Mat α) (x : Int)
    (hlo : -(m.c : Int) ≤ x) (hhi : x < (m.c : Int)) :
    M05.Col m x =
      .ok ⟨m.r, 1, writeRow 0 m.r
        (fun r _ => m.vals.getD (r * m.c + (if 0 ≤ x then x else (m.c : Int) + x).toNat) 0)
        (List.replicate (m.r * 1) 0)⟩ := by
  unfold M05.Col
  rcases Int.le_or_lt 0 x with hx | hx
  · rw [if_neg (by omega), if_pos (by omega), if_pos hx]
  · rw [if_neg (by omega), if_neg (by omega), if_neg (by omega)]

/-- Col fails with IndexOutOfRange outside [-cols, cols). -/
theorem M05.Col_out_of_range {α : Type} [Zero α] (m : Mat α) (x : Int)
    (h : x < -(m.c : Int) ∨ (m.c : Int) ≤ x) :
    M05.Col m x = .error .IndexOutOfRange := by
  unfold M05.Col
  rw [if_pos (by omega)]

/-- The entries of an in-range Col result. -/
theorem M05.Col_At {α : Type} [Zero α] (m : Mat α) (x : Int) (v : Mat α)
    (hok : M05.Col m x = .ok v) (i : Nat) (hi : i < m.r) :
    M05.At v i 0 = m.vals.getD (i * m.c + (if 0 ≤ x then x else (m.c : Int) + x).toNat) 0 := by
  unfold M05.Col at hok
  by_cases hrange : x ≥ (m.c : Int) ∨ x < -(m.c : Int)
  · rw [if_pos hrange] at hok
    cases hok
  · rw [if_neg hrange] at hok
    have hlen : (0 : Nat) + i < (List.replicate (m.r * 1) (0 : α)).length := by
      rw [List.length_replicate]; omega
    rcases Int.le_or_lt 0 x with hx | hx
    · rw [if_pos hx] at hok
      cases hok
      unfold M05.At
      simp only
      have := getD_writeRow_in 0 m.r
        (fun r _ => m.vals.getD (r * m.c + x.toNat) 0)
        (List.replicate (m.r * 1) 0) i hi hlen
      simp only [Nat.zero_add] at this
      rw [if_pos hx]
      simpa using this
    · rw [if_neg (by omega)] at hok
      cases hok
      unfold M05.At
      simp only
      have := getD_writeRow_in 0 m.r
        (fun r _ => m.vals.getD (r * m.c + ((m.c : Int) + x).toNat) 0)
        (List.replicate (m.r * 1) 0) i hi hlen
      simp only [Nat.zero_add] at this
      rw [if_neg (by omega)]
      simpa using this

/-- Entries of the Dot product: cell (i, j) is the k-fold accumulation, in
increasing k, starting from the zero the fresh buffer held. -/
theorem M05.Dot_At {α : Type} [Zero α] [Add α] [Mul α] (m n o : Mat α)
    (hok : M05.Dot m n = .ok o) (i j : Nat) (hi : i < m.r) (hj : j < n.c) :
    M05.At o i j =
      (List.range m.c).foldl
        (fun acc k => acc + m.vals.getD (i * m.c + k) 0 * n.vals.getD (k * n.c + j) 0) 0 := by
  unfold M05.Dot at hok
  by_cases hcr : m.c ≠ n.r
  · rw [if_pos hcr] at hok; cases hok
  · rw [if_neg hcr] at hok
    cases hok
    unfold M05.At
    simp only
    have hlen : i * n.c + j < (List.replicate (m.r * n.c) (0 : α)).length := by
      rw [List.length_replicate]
      calc i * n.c + j < i * n.c + n.c := by omega
      _ = (i + 1) * n.c := (Nat.succ_mul i n.c).symm
      _ ≤ m.r * n.c := Nat.mul_le_mul_right n.c hi
    rw [getD_write2acc _ _ _ _ i j hi hj hlen, getD_replicate_zero]

theorem M05.Dot_dims {α : Type} [Zero α] [Add α] [Mul α] (m n o : Mat α)
    (hok : M05.Dot m n = .ok o) : o.r = m.r ∧ o.c = n.c ∧ o.WF := by
  unfold M05.Dot at hok
  by_cases hcr : m.c ≠ n.r
  · rw [if_pos hcr] at hok; cases hok
  · rw [if_neg hcr] at hok
    cases hok
    refine ⟨rfl, rfl, ?_⟩
    show (write2acc _ _ _ _).length = _
    rw [length_write2acc, List.length_replicate]

theorem M05.Dot_mismatch {α : Type} [Zero α] [Add α] [Mul α] (m n : Mat α)
    (h : m.c ≠ n.r) : M05.Dot m n = .error .ShapeMismatch := by
  unfold M05.Dot
  rw [if_pos h]

/-! ### Shape-invariant preservation lemmas (claim C6) -/

theorem length_flatten2D {α : Type} [Zero α] (c0 : Nat) (v : List (List α)) (init : List α) :
    (flatten2D c0 v init).length = init.length := by
  unfold flatten2D
  exact length_foldl_set _ (fun w i => length_writeRow _ _ _ _) _ _

theorem M05.WF_New0 {α : Type} : (M05.New0 : Mat α).WF := rfl

theorem M05.WF_New1 {α : Type} [Zero α] (x : Nat) : (M05.New1 x : Mat α).WF :=
  List.length_replicate _ _

theorem M05.WF_New2 {α : Type} [Zero α] (x y : Nat) : (M05.New2 x y : Mat α).WF :=
  List.length_replicate _ _

theorem M05.WF_New3 {α : Type} [Zero α] (x y z : Nat) : (M05.New3 x y z : Mat α).WF :=
  List.length_replicate _ _

theorem M05.WF_Set {α : Type} (m : Mat α) (hm : m.WF) (r c : Nat) (val : α) :
    (M05.Set m r c val).WF := by
  show (m.vals.set _ _).length = m.r * m.c
  rw [List.length_set]; exact hm

theorem M05.WF_SetAll {α : Type} (m : Mat α) (hm : m.WF) (val : α) :
    (M05.SetAll m val).WF := by
  show (m.vals.map _).length = m.r * m.c
  rw [List.length_map]; exact hm

theorem M05.WF_Foreach {α : Type} (m : Mat α) (hm : m.WF) (f : α → α) :
    (M05.Foreach m f).WF := by
  show (m.vals.map _).length = m.r * m.c
  rw [List.length_map]; exact hm

theorem M05.WF_Copy {α : Type} [Zero α] (m : Mat α) : (M05.Copy m).WF := by
  unfold Mat.WF M05.Copy
  simp only [List.length_append, List.length_take, List.length_replicate]
  omega

theorem M05.WF_T {α : Type} [Zero α] (m : Mat α) : (M05.T m).WF := by
  show (M05.T m).vals.length = (M05.T m).r * (M05.T m).c
  rw [M05.T_length, M05.T_r, M05.T_c]

theorem M05.WF_Reshape {α : Type} (m : Mat α) (hm : m.WF) (rows cols : Nat)
    (o : Mat α) (hok : M05.Reshape m rows cols = .ok o) : o.WF := by
  unfold M05.Reshape at hok
  by_cases h : rows * cols ≠ m.r * m.c
  · rw [if_pos h] at hok; cases hok
  · rw [if_neg h] at hok
    cases hok
    show m.vals.length = rows * cols
    have hm' : m.vals.length = m.r * m.c := hm
    omega

theorem M05.WF_Col {α : Type} [Zero α] (m : Mat α) (x : Int) (o : Mat α)
    (hok : M05.Col m x = .ok o) : o.WF := by
  unfold M05.Col at hok
  by_cases h : x ≥ (m.c : Int) ∨ x < -(m.c : Int)
  · rw [if_pos h] at hok; cases hok
  · rw [if_neg h] at hok
    by_cases hx : x ≥ 0
    · rw [if_pos hx] at hok
      cases hok
      unfold Mat.WF
      simp only [length_writeRow, List.length_replicate]
    · rw [if_neg hx] at hok
      cases hok
      unfold Mat.WF
      simp only [length_writeRow, List.length_replicate]

theorem M05.WF_Row {α : Type} [Zero α] (m : Mat α) (x : Int) (o : Mat α)
    (hok : M05.Row m x = .ok o) : o.WF := by
  unfold M05.Row at hok
  by_cases h : x ≥ (m.r : Int) ∨ x < -(m.r : Int)
  · rw [if_pos h] at hok; cases hok
  · rw [if_neg h] at hok
    by_cases hx : x ≥ 0
    · rw [if_pos hx] at hok
      cases hok
      unfold Mat.WF
      simp only [length_writeRow, List.length_replicate]
    · rw [if_neg hx] at hok
      cases hok
      unfold Mat.WF
      simp only [length_writeRow, List.length_replicate]

theorem M05.WF_AppendRow {α : Type} (m : Mat α) (hm : m.WF) (v : List α)
    (o : Mat α) (hok : M05.AppendRow m v = .ok o) : o.WF := by
  unfold M05.AppendRow at hok
  by_cases h : m.c ≠ v.length
  · rw [if_pos h] at hok; cases hok
  · rw [if_neg h] at hok
    cases hok
    show (m.vals ++ v).length = (m.r + 1) * m.c
    rw [List.length_append, hm, Nat.succ_mul]
    omega

theorem M05.WF_AppendCol {α : Type} [Zero α] (m : Mat α) (hm : m.WF) (v : List α)
    (o : Mat α) (hok : M05.AppendCol m v = .ok o) : o.WF := by
  unfold M05.AppendCol at hok
  by_cases h : m.r ≠ v.length
  · rw [if_pos h] at hok; cases hok
  · rw [if_neg h] at hok
    cases hok
    show (write2acc _ _ _ _).length = m.r * (m.c + 1)
    rw [length_write2acc, List.length_append, hm]
    have hv : v.length = m.r := by omega
    rw [hv, Nat.mul_add, Nat.mul_one]

theorem M05.WF_Concat {α : Type} [Zero α] (m n : Mat α) (hm : m.WF) (hn : n.WF)
    (o : Mat α) (hok : M05.Concat m n = .ok o) : o.WF := by
  unfold M05.Concat at hok
  by_cases h : m.r ≠ n.r
  · rw [if_pos h] at hok; cases hok
  · rw [if_neg h] at hok
    cases hok
    show (write2acc _ _ _ _).length = m.r * (m.c + n.c)
    rw [length_write2acc, List.length_append]
    show m.vals.length + (M05.Vals n).length = _
    unfold M05.Vals
    rw [hm, hn, Nat.mul_add]
    have hr : n.r = m.r := by omega
    rw [hr]

theorem M05.WF_AddMat {α : Type} [Add α] (m v : Mat α) (hm : m.WF) (hv : v.WF)
    (p : Mat α × Mat α) (hok : M05.AddMat m v = .ok p) : p.1.WF ∧ p.2.WF := by
  unfold M05.AddMat at hok
  by_cases h1 : v.r ≠ m.r
  · rw [if_pos h1] at hok; cases hok
  · rw [if_neg h1] at hok
    by_cases h2 : v.c ≠ m.c
    · rw [if_pos h2] at hok; cases hok
    · rw [if_neg h2] at hok
      cases hok
      have hl : (List.zipWith (· + ·) m.vals v.vals).length = m.r * m.c := by
        rw [List.length_zipWith]
        have hm' : m.vals.length = m.r * m.c := hm
        have hv' : v.vals.length = v.r * v.c := hv
        have e1 : v.r = m.r := not_ne_iff.mp h1
        have e2 : v.c = m.c := not_ne_iff.mp h2
        rw [e1, e2] at hv'
        omega
      exact ⟨hl, hl⟩

theorem M05.WF_SubMat {α : Type} [Sub α] (m v : Mat α) (hm : m.WF) (hv : v.WF)
    (p : Mat α × Mat α) (hok : M05.SubMat m v = .ok p) : p.1.WF ∧ p.2.WF := by
  unfold M05.SubMat at hok
  by_cases h1 : v.r ≠ m.r
  · rw [if_pos h1] at hok; cases hok
  · rw [if_neg h1] at hok
    by_cases h2 : v.c ≠ m.c
    · rw [if_pos h2] at hok; cases hok
    · rw [if_neg h2] at hok
      cases hok
      have hl : (List.zipWith (· - ·) m.vals v.vals).length = m.r * m.c := by
        rw [List.length_zipWith]
        have hm' : m.vals.length = m.r * m.c := hm
        have hv' : v.vals.length = v.r * v.c := hv
        have e1 : v.r = m.r := not_ne_iff.mp h1
        have e2 : v.c = m.c := not_ne_iff.mp h2
        rw [e1, e2] at hv'
        omega
      exact ⟨hl, hl⟩

theorem M05.WF_MulMat {α : Type} [Mul α] (m v : Mat α) (hm : m.WF) (hv : v.WF)
    (p : Mat α × Mat α) (hok : M05.MulMat m v = .ok p) : p.1.WF ∧ p.2.WF := by
  unfold M05.MulMat at hok
  by_cases h1 : v.r ≠ m.r
  · rw [if_pos h1] at hok; cases hok
  · rw [if_neg h1] at hok
    by_cases h2 : v.c ≠ m.c
    · rw [if_pos h2] at hok; cases hok
    · rw [if_neg h2] at hok
      cases hok
      have hl : (List.zipWith (· * ·) m.vals v.vals).length = m.r * m.c := by
        rw [List.length_zipWith]
        have hm' : m.vals.length = m.r * m.c := hm
        have hv' : v.vals.length = v.r * v.c := hv
        have e1 : v.r = m.r := not_ne_iff.mp h1
        have e2 : v.c = m.c := not_ne_iff.mp h2
        rw [e1, e2] at hv'
        omega
      exact ⟨hl, hl⟩

theorem M05.WF_DivMat {α : Type} [Div α] (m v : Mat α) (hm : m.WF) (hv : v.WF)
    (p : Mat α × Mat α) (hok : M05.DivMat m v = .ok p) : p.1.WF ∧ p.2.WF := by
  unfold M05.DivMat at hok
  by_cases h1 : v.r ≠ m.r
  · rw [if_pos h1] at hok; cases hok
  · rw [if_neg h1] at hok
    by_cases h2 : v.c ≠ m.c
    · rw [if_pos h2] at hok; cases hok
    · rw [if_neg h2] at hok
      cases hok
      have hl : (List.zipWith (· / ·) m.vals v.vals).length = m.r * m.c := by
        rw [List.length_zipWith]
        have hm' : m.vals.length = m.r * m.c := hm
        have hv' : v.vals.length = v.r * v.c := hv
        have e1 : v.r = m.r := not_ne_iff.mp h1
        have e2 : v.c = m.c := not_ne_iff.mp h2
        rw [e1, e2] at hv'
        omega
      exact ⟨hl, hl⟩

theorem M05.WF_AddScalar {α : Type} [Add α] (m : Mat α) (hm : m.WF) (v : α) :
    (M05.AddScalar m v).WF := by
  show (m.vals.map _).length = m.r * m.c
  rw [List.length_map]; exact hm

theorem M05.WF_SubScalar {α : Type} [Sub α] (m : Mat α) (hm : m.WF) (v : α) :
    (M05.SubScalar m v).WF := by
  show (m.vals.map _).length = m.r * m.c
  rw [List.length_map]; exact hm

theorem M05.WF_MulScalar {α : Type} [Mul α] (m : Mat α) (hm : m.WF) (v : α) :
    (M05.MulScalar m v).WF := by
  show (m.vals.map _).length = m.r * m.c
  rw [List.length_map]; exact hm

theorem M05.WF_DivScalar {α : Type} [Div α] (m : Mat α) (hm : m.WF) (v : α) :
    (M05.DivScalar m v).WF := by
  show (m.vals.map _).length = m.r * m.c
  rw [List.length_map]; exact hm

theorem M05.WF_FromData1D0 {α : Type} (v : List α) : (M05.FromData1D0 v).WF := by
  show v.length = 1 * v.length
  omega

theorem M05.WF_FromData1D1 {α : Type} (v : List α) (a : Nat) (o : Mat α)
    (hok : M05.FromData1D1 v a = .ok o) : o.WF := by
  unfold M05.FromData1D1 at hok
  by_cases h : a ≠ v.length
  · rw [if_pos h] at hok; cases hok
  · rw [if_neg h] at hok
    cases hok
    show v.length = a * 1
    omega

theorem M05.WF_FromData1D2 {α : Type} (v : List α) (a b : Nat) (o : Mat α)
    (hok : M05.FromData1D2 v a b = .ok o) : o.WF := by
  unfold M05.FromData1D2 at hok
  by_cases h : a * b ≠ v.length
  · rw [if_pos h] at hok; cases hok
  · rw [if_neg h] at hok
    cases hok
    show v.length = a * b
    omega

theorem M05.WF_FromData2D0 {α : Type} [Zero α] (v : List (List α)) :
    (M05.FromData2D0 v).WF := by
  unfold Mat.WF M05.FromData2D0
  simp only [length_flatten2D, List.length_replicate]

theorem M05.WF_FromData2D2 {α : Type} [Zero α] (v : List (List α)) (a b : Nat)
    (o : Mat α) (hok : M05.FromData2D2 v a b = .ok o) : o.WF := by
  unfold M05.FromData2D2 at hok
  by_cases h : a ≠ v.length ∨ b ≠ (v.getD 0 []).length
  · rw [if_pos h] at hok; cases hok
  · rw [if_neg h] at hok
    cases hok
    unfold Mat.WF
    simp only [length_flatten2D, List.length_replicate]
    push_neg at h
    rw [h.1, h.2]

theorem getD_zipWith {α : Type} (f : α → α → α) (l1 l2 : List α) (i : Nat) (d : α)
    (h1 : i < l1.length) (h2 : i < l2.length) :
    (List.zipWith f l1 l2).getD i d = f (l1.getD i d) (l2.getD i d) := by
  simp [List.getD_eq_getElem?_getD, List.getElem?_zipWith, List.getElem?_eq_getElem, h1, h2]

/-! ### Behavior of the element-wise operators (claims C2, C3) -/

theorem M05.AddMat_ok {α : Type} [Add α] (m v : Mat α) (hr : v.r = m.r) (hc : v.c = m.c) :
    M05.AddMat m v =
      .ok ({ m with vals := List.zipWith (· + ·) m.vals v.vals },
           { m with vals := List.zipWith (· + ·) m.vals v.vals }) := by
  unfold M05.AddMat
  rw [if_neg (by omega), if_neg (by omega)]

theorem M05.SubMat_ok {α : Type} [Sub α] (m v : Mat α) (hr : v.r = m.r) (hc : v.c = m.c) :
    M05.SubMat m v =
      .ok ({ m with vals := List.zipWith (· - ·) m.vals v.vals },
           { m with vals := List.zipWith (· - ·) m.vals v.vals }) := by
  unfold M05.SubMat
  rw [if_neg (by omega), if_neg (by omega)]

theorem M05.MulMat_ok {α : Type} [Mul α] (m v : Mat α) (hr : v.r = m.r) (hc : v.c = m.c) :
    M05.MulMat m v =
      .ok ({ m with vals := List.zipWith (· * ·) m.vals v.vals },
           { m with vals := List.zipWith (· * ·) m.vals v.vals }) := by
  unfold M05.MulMat
  rw [if_neg (by omega), if_neg (by omega)]

theorem M05.DivMat_ok {α : Type} [Div α] (m v : Mat α) (hr : v.r = m.r) (hc : v.c = m.c) :
    M05.DivMat m v =
      .ok ({ m with vals := List.zipWith (· / ·) m.vals v.vals },
           { m with vals := List.zipWith (· / ·) m.vals v.vals }) := by
  unfold M05.DivMat
  rw [if_neg (by omega), if_neg (by omega)]

theorem M05.AddMat_mismatch {α : Type} [Add α] (m v : Mat α)
    (h : v.r ≠ m.r ∨ v.c ≠ m.c) : M05.AddMat m v = .error .ShapeMismatch := by
  unfold M05.AddMat
  by_cases h1 : v.r ≠ m.r
  · rw [if_pos h1]
  · rw [if_neg h1, if_pos (by tauto)]

theorem M05.SubMat_mismatch {α : Type} [Sub α] (m v : Mat α)
    (h : v.r ≠ m.r ∨ v.c ≠ m.c) : M05.SubMat m v = .error .ShapeMismatch := by
  unfold M05.SubMat
  by_cases h1 : v.r ≠ m.r
  · rw [if_pos h1]
  · rw [if_neg h1, if_pos (by tauto)]

theorem M05.MulMat_mismatch {α : Type} [Mul α] (m v : Mat α)
    (h : v.r ≠ m.r ∨ v.c ≠ m.c) : M05.MulMat m v = .error .ShapeMismatch := by
  unfold M05.MulMat
  by_cases h1 : v.r ≠ m.r
  · rw [if_pos h1]
  · rw [if_neg h1, if_pos (by tauto)]

theorem M05.DivMat_mismatch {α : Type} [Div α] (m v : Mat α)
    (h : v.r ≠ m.r ∨ v.c ≠ m.c) : M05.DivMat m v = .error .ShapeMismatch := by
  unfold M05.DivMat
  by_cases h1 : v.r ≠ m.r
  · rw [if_pos h1]
  · rw [if_neg h1, if_pos (by tauto)]

theorem M04_AddMat_ok {α : Type} [Add α] [Zero α] (m v : Mat α)
    (hr : v.r = m.r) (hc : v.c = m.c) :
    M04.AddMat m v =
      .ok (m, { M05.Copy m with vals := List.zipWith (· + ·) (M05.Copy m).vals v.vals }) := by
  unfold M04.AddMat
  rw [if_neg (by simp [M05.Copy]; omega), if_neg (by simp [M05.Copy]; omega)]

theorem M06_Div_zero {α : Type} [Div α] [Zero α] [BEq α] [LawfulBEq α] (m d : Mat α)
    (hr : m.r = d.r) (hc : m.c = d.c) (h0 : (0 : α) ∈ d.vals) :
    M06.Div m d = .error .DivisionByZero := by
  unfold M06.Div
  rw [if_neg (by omega), if_neg (by omega), if_pos]
  unfold M05.Any
  rw [List.any_eq_true]
  exact ⟨0, h0, by simp⟩

theorem M06_Div_no_zero_ok {α : Type} [Div α] [Zero α] [BEq α] (m d : Mat α)
    (hr : m.r = d.r) (hc : m.c = d.c) (h0 : M05.Any d (fun x => x == 0) = false) :
    M06.Div m d =
      .ok ({ m with vals := writeRow 0 (m.r * m.c) (fun i cur => cur / d.vals.getD i 0) m.vals },
           { m with vals := writeRow 0 (m.r * m.c) (fun i cur => cur / d.vals.getD i 0) m.vals }) := by
  unfold M06.Div
  rw [if_neg (by omega), if_neg (by omega), if_neg (by simp [h0])]

theorem M04_AddMat_mismatch {α : Type} [Add α] [Zero α] (m v : Mat α)
    (h : v.r ≠ m.r ∨ v.c ≠ m.c) : M04.AddMat m v = .error .ShapeMismatch := by
  unfold M04.AddMat
  have hr : (M05.Copy m).r = m.r := rfl
  have hc : (M05.Copy m).c = m.c := rfl
  by_cases h1 : v.r ≠ (M05.Copy m).r
  · rw [if_pos h1]
  · rw [if_neg h1, if_pos (by rw [hc]; rw [hr] at h1; tauto)]

/-! ## Claim theorems -/

/-- C1: the claim states that Set(r, c, value) writes row-major linear index
r*cols + c, the same index read back by At(r, c), so At∘Set round-trips on
every non-empty matrix including non-square ones.  The code computes the
index as r*rows + c instead: on the 2 by 3 zero matrix, Set(1, 2, 5) lands
at linear index 1*2+2 = 4, while At(1, 2) reads index 1*3+2 = 5, so the
value read back is 0, not 5. -/
theorem C1_set_uses_row_stride :
    M05.At (M05.Set (M05.New2 2 3 : Mat ℚ) 1 2 5) 1 2 = 0 ∧
    (0 : ℚ) ≠ 5 ∧
    (M05.Set (M05.New2 2 3 : Mat ℚ) 1 2 5).vals.getD 4 0 = 5 ∧
    (M05.Set (M05.New2 2 3 : Mat ℚ) 1 2 5).vals.getD 5 0 = 0 := by decide

/-- C2 counterexample: in the part_005 variant, dividing a matrix that
contains a zero element by itself does NOT fail with DivisionByZero — the
call succeeds (and the receiver is combined element-wise), because this
variant has no zero-divisor scan. -/
theorem C2_counterexample :
    M05.DivMat (⟨1, 2, [0, 2]⟩ : Mat ℚ) ⟨1, 2, [0, 2]⟩ ≠ .error .DivisionByZero ∧
    (M05.DivMat (⟨1, 2, [0, 2]⟩ : Mat ℚ) ⟨1, 2, [0, 2]⟩).isOk = true := by decide

/-- C2 (amended): in the part_006 variant the claim holds — for same-shaped
m and divisor d with some element exactly zero, Div fails with
DivisionByZero before any element is divided, producing no mutated receiver
state; the part_005 variant instead performs no zero check: with matching
shapes it always succeeds, dividing element-wise and mutating the
receiver. -/
theorem C2_div_zero_check (m d : Mat ℚ) :
    (m.r = d.r → m.c = d.c → (0 : ℚ) ∈ d.vals →
      M06.Div m d = .error .DivisionByZero) ∧
    (d.r = m.r → d.c = m.c →
      M05.DivMat m d =
        .ok ({ m with vals := List.zipWith (· / ·) m.vals d.vals },
             { m with vals := List.zipWith (· / ·) m.vals d.vals })) := by
  constructor
  · intro hr hc h0
    exact M06_Div_zero m d hr hc h0
  · intro hr hc
    exact M05.DivMat_ok m d hr hc

/-- C2 witness: a 1 by 2 matrix divided by a same-shaped divisor holding a
zero fails with DivisionByZero in the part_006 variant. -/
theorem C2_div_zero_check_witness :
    M06.Div (⟨1, 2, [1, 2]⟩ : Mat ℚ) ⟨1, 2, [0, 5]⟩ = .error .DivisionByZero :=
  (C2_div_zero_check ⟨1, 2, [1, 2]⟩ ⟨1, 2, [0, 5]⟩).1 rfl rfl (by decide)

/-- C3 counterexample: the part_004 variant's Add (cited by the claim) does
NOT mutate the receiver and does not return the receiver: after the call
the receiver still holds its old values while the returned mat holds the
combined values, which differ. -/
theorem C3_counterexample :
    M04.AddMat (⟨1, 1, [2]⟩ : Mat ℤ) ⟨1, 1, [3]⟩ = .ok (⟨1, 1, [2]⟩, ⟨1, 1, [5]⟩) ∧
    (⟨1, 1, [5]⟩ : Mat ℤ) ≠ ⟨1, 1, [2]⟩ := by decide

/-- C3 (amended): with identical rows and cols, Add/Sub/Mul/Div of the
part_005 variant combine the operands element-wise by matching row-major
linear index, mutate the receiver in place and return it (the receiver
state after the call and the returned mat are the same combined mat); with
differing rows or cols all of them fail with ShapeMismatch and no element
is combined.  The part_004 variant combines element-wise the same way but
returns a fresh mat and leaves the receiver unmodified (shown for Add). -/
theorem C3_elementwise_ops {α : Type} [Field α] (m n : Mat α) (hm : m.WF) (hn : n.WF) :
    (n.r = m.r → n.c = m.c →
      (M05.AddMat m n =
          .ok ({ m with vals := List.zipWith (· + ·) m.vals n.vals },
               { m with vals := List.zipWith (· + ·) m.vals n.vals }) ∧
        M05.SubMat m n =
          .ok ({ m with vals := List.zipWith (· - ·) m.vals n.vals },
               { m with vals := List.zipWith (· - ·) m.vals n.vals }) ∧
        M05.MulMat m n =
          .ok ({ m with vals := List.zipWith (· * ·) m.vals n.vals },
               { m with vals := List.zipWith (· * ·) m.vals n.vals }) ∧
        M05.DivMat m n =
          .ok ({ m with vals := List.zipWith (· / ·) m.vals n.vals },
               { m with vals := List.zipWith (· / ·) m.vals n.vals })) ∧
      (∀ i, i < m.r * m.c →
        (List.zipWith (· + ·) m.vals n.vals).getD i 0 = m.vals.getD i 0 + n.vals.getD i 0 ∧
        (List.zipWith (· - ·) m.vals n.vals).getD i 0 = m.vals.getD i 0 - n.vals.getD i 0 ∧
        (List.zipWith (· * ·) m.vals n.vals).getD i 0 = m.vals.getD i 0 * n.vals.getD i 0 ∧
        (List.zipWith (· / ·) m.vals n.vals).getD i 0 = m.vals.getD i 0 / n.vals.getD i 0) ∧
      M04.AddMat m n =
        .ok (m, { M05.Copy m with vals := List.zipWith (· + ·) (M05.Copy m).vals n.vals })) ∧
    (n.r ≠ m.r ∨ n.c ≠ m.c →
      M05.AddMat m n = .error .ShapeMismatch ∧
      M05.SubMat m n = .error .ShapeMismatch ∧
      M05.MulMat m n = .error .ShapeMismatch ∧
      M05.DivMat m n = .error .ShapeMismatch ∧
      M04.AddMat m n = .error .ShapeMismatch) := by
  constructor
  · intro hr hc
    refine ⟨⟨M05.AddMat_ok m n hr hc, M05.SubMat_ok m n hr hc,
      M05.MulMat_ok m n hr hc, M05.DivMat_ok m n hr hc⟩, ?_, M04_AddMat_ok m n hr hc⟩
    intro i hi
    have h1 : i < m.vals.length := by
      have hm' : m.vals.length = m.r * m.c := hm
      omega
    have h2 : i < n.vals.length := by
      have hn' : n.vals.length = n.r * n.c := hn
      rw [hr, hc] at hn'
      omega
    exact ⟨getD_zipWith _ _ _ _ _ h1 h2, getD_zipWith _ _ _ _ _ h1 h2,
      getD_zipWith _ _ _ _ _ h1 h2, getD_zipWith _ _ _ _ _ h1 h2⟩
  · intro h
    exact ⟨M05.AddMat_mismatch m n h, M05.SubMat_mismatch m n h,
      M05.MulMat_mismatch m n h, M05.DivMat_mismatch m n h, M04_AddMat_mismatch m n h⟩

/-- C3 witness: the part_005 Add on concrete same-shaped 1 by 2 mats. -/
theorem C3_elementwise_ops_witness :
    M05.AddMat (⟨1, 2, [1, 2]⟩ : Mat ℚ) ⟨1, 2, [3, 4]⟩ =
      .ok (⟨1, 2, List.zipWith (· + ·) [1, 2] [3, 4]⟩,
           ⟨1, 2, List.zipWith (· + ·) [1, 2] [3, 4]⟩) :=
  (((C3_elementwise_ops (⟨1, 2, [1, 2]⟩ : Mat ℚ) ⟨1, 2, [3, 4]⟩
    (by decide) (by decide)).1 rfl rfl).1).1

/-- C4: the claim (matching the spec and the part_006 variant) says the
axis form of Std divides the summed squared deviations by the slice length
(cols for a row, rows for a column).  On the 2 by 2 matrix with rows
[0, 2] and [0, 0], the deviation sum of row 0 is 2, so the claimed value is
sqrt(2/2) = 1 (as specStdRow and part_006's Std both compute), but
part_005's Std (identically part_004's) divides by len(vals) = 4 and
returns sqrt(2/4), which differs.  The zero-argument form of part_005 does
divide by rows*cols, matching the claim (and specStdWhole). -/
theorem C4_std_divisor_bug :
    M05.Std2 Real.sqrt (⟨2, 2, [0, 2, 0, 0]⟩ : Mat ℝ) 0 0 = .ok (Real.sqrt (2 / 4)) ∧
    specStdRow (⟨2, 2, [0, 2, 0, 0]⟩ : Mat ℝ) 0 = Real.sqrt (2 / 2) ∧
    M06.Std Real.sqrt (⟨2, 2, [0, 2, 0, 0]⟩ : Mat ℝ) 0 0 = .ok (Real.sqrt (2 / 2)) ∧
    Real.sqrt (2 / 4) ≠ Real.sqrt (2 / 2) ∧
    M05.Std0 Real.sqrt (⟨2, 2, [0, 2, 0, 0]⟩ : Mat ℝ) = Real.sqrt (3 / 4) ∧
    specStdWhole (⟨2, 2, [0, 2, 0, 0]⟩ : Mat ℝ) = Real.sqrt (3 / 4) := by
  refine ⟨?_, ?_, ?_, ?_, ?_, ?_⟩
  · norm_num [M05.Std2, M05.Avg2, List.range_succ]
  · norm_num [specStdRow, specMeanRow, M05.At, List.range_succ]
  · norm_num [M06.Std, M06.precheckedAverage, M06.precheckedSum, List.range_succ]
  · intro h
    rw [Real.sqrt_inj (by norm_num) (by norm_num)] at h
    norm_num at h
  · norm_num [M05.Std0, M05.Avg0]
  · norm_num [specStdWhole, specMeanWhole]

/-- C5: the claim (matching part_005's own doc comment and its test file)
says FromData with explicit dims succeeds iff the product of the supplied
dims equals the number of source values, with the resulting dims as
supplied.  The nested-data paths deviate: FromData(s, a) checks a*2
against the total count instead of a*a — it rejects a 3 by 3 source with
a = 3 (where a*a = 9 = count) — and where its check passes (a 2 by 4
source with a = 4, since 4*2 = 8) it allocates an a*a = 16 buffer but sets
dims to the source's (2, 4), not (4, 4); FromData(s, a, b) requires a and
b to equal the source's own outer/inner lengths, rejecting (1, 4) on a
2 by 2 source although 1*4 = 4 = count.  The flat-data paths conform:
shown for FromData(v, a) and FromData(v, a, b) accepting exactly at the
product condition. -/
theorem C5_fromdata_checks :
    M05.FromData2D1 ([[1, 2, 3], [4, 5, 6], [7, 8, 9]] : List (List ℚ)) 3 =
      .error .ShapeMismatch ∧
    M05.FromData2D1 ([[1, 2, 3, 4], [5, 6, 7, 8]] : List (List ℚ)) 4 =
      .ok ⟨2, 4, [1, 2, 3, 4, 5, 6, 7, 8, 0, 0, 0, 0, 0, 0, 0, 0]⟩ ∧
    M05.FromData2D2 ([[1, 2], [3, 4]] : List (List ℚ)) 1 4 = .error .ShapeMismatch ∧
    M05.FromData1D1 ([1, 2, 3] : List ℚ) 3 = .ok ⟨3, 1, [1, 2, 3]⟩ ∧
    M05.FromData1D1 ([1, 2, 3] : List ℚ) 2 = .error .ShapeMismatch ∧
    M05.FromData1D2 ([1, 2, 3, 4, 5, 6] : List ℚ) 2 3 = .ok ⟨2, 3, [1, 2, 3, 4, 5, 6]⟩ ∧
    M05.FromData1D2 ([1, 2, 3, 4, 5, 6] : List ℚ) 2 2 = .error .ShapeMismatch := by
  decide

/-- C6: the claim says len(vals) == rows*cols after every public operation,
construction included.  The nested FromData(s, a) path violates it: on a
2 by 4 source with a = 4 its a*2 check passes, it allocates an a*a = 16
element buffer, and sets dims to (2, 4) — the completed construction has
16 backing values but rows*cols = 8.  Every other embedded public
operation preserves the invariant, as the remaining conjuncts state. -/
theorem C6_shape_invariant :
    (∃ M : Mat ℚ, M05.FromData2D1 ([[1, 2, 3, 4], [5, 6, 7, 8]] : List (List ℚ)) 4 = .ok M ∧
      M.vals.length = 16 ∧ M.r * M.c = 8) ∧
    (∀ r c z : ℕ, (M05.New0 : Mat ℚ).WF ∧ (M05.New1 r : Mat ℚ).WF ∧
      (M05.New2 r c : Mat ℚ).WF ∧ (M05.New3 r c z : Mat ℚ).WF) ∧
    (∀ (m : Mat ℚ) (r c : ℕ) (q : ℚ), m.WF → (M05.Set m r c q).WF) ∧
    (∀ (m : Mat ℚ) (q : ℚ), m.WF → (M05.SetAll m q).WF) ∧
    (∀ (m : Mat ℚ) (f : ℚ → ℚ), m.WF → (M05.Foreach m f).WF) ∧
    (∀ (m : Mat ℚ) (r c : ℕ) (o : Mat ℚ), m.WF → M05.Reshape m r c = .ok o → o.WF) ∧
    (∀ (m : Mat ℚ) (v : List ℚ) (o : Mat ℚ), m.WF → M05.AppendRow m v = .ok o → o.WF) ∧
    (∀ (m : Mat ℚ) (v : List ℚ) (o : Mat ℚ), m.WF → M05.AppendCol m v = .ok o → o.WF) ∧
    (∀ (m n o : Mat ℚ), m.WF → n.WF → M05.Concat m n = .ok o → o.WF) ∧
    (∀ (m n : Mat ℚ) (p : Mat ℚ × Mat ℚ), m.WF → n.WF →
      M05.AddMat m n = .ok p → p.1.WF ∧ p.2.WF) ∧
    (∀ (m n : Mat ℚ) (p : Mat ℚ × Mat ℚ), m.WF → n.WF →
      M05.SubMat m n = .ok p → p.1.WF ∧ p.2.WF) ∧
    (∀ (m n : Mat ℚ) (p : Mat ℚ × Mat ℚ), m.WF → n.WF →
      M05.MulMat m n = .ok p → p.1.WF ∧ p.2.WF) ∧
    (∀ (m n : Mat ℚ) (p : Mat ℚ × Mat ℚ), m.WF → n.WF →
      M05.DivMat m n = .ok p → p.1.WF ∧ p.2.WF) ∧
    (∀ (m : Mat ℚ) (q : ℚ), m.WF → (M05.AddScalar m q).WF ∧ (M05.SubScalar m q).WF ∧
      (M05.MulScalar m q).WF ∧ (M05.DivScalar m q).WF) ∧
    (∀ m : Mat ℚ, (M05.T m).WF ∧ (M05.Copy m).WF) ∧
    (∀ (m : Mat ℚ) (x : ℤ) (o : Mat ℚ), M05.Col m x = .ok o → o.WF) ∧
    (∀ (m : Mat ℚ) (x : ℤ) (o : Mat ℚ), M05.Row m x = .ok o → o.WF) ∧
    (∀ m n o : Mat ℚ, M05.Dot m n = .ok o → o.WF) ∧
    (∀ v : List ℚ, (M05.FromData1D0 v).WF) ∧
    (∀ (v : List ℚ) (a : ℕ) (o : Mat ℚ), M05.FromData1D1 v a = .ok o → o.WF) ∧
    (∀ (v : List ℚ) (a b : ℕ) (o : Mat ℚ), M05.FromData1D2 v a b = .ok o → o.WF) ∧
    (∀ v : List (List ℚ), (M05.FromData2D0 v).WF) ∧
    (∀ (v : List (List ℚ)) (a b : ℕ) (o : Mat ℚ), M05.FromData2D2 v a b = .ok o → o.WF) := by
  refine ⟨?_, ?_, ?_, ?_, ?_, ?_, ?_, ?_, ?_, ?_, ?_, ?_, ?_, ?_, ?_, ?_, ?_, ?_, ?_, ?_, ?_, ?_, ?_⟩
  · exact ⟨⟨2, 4, [1, 2, 3, 4, 5, 6, 7, 8, 0, 0, 0, 0, 0, 0, 0, 0]⟩, by decide, by decide, by decide⟩
  · exact fun r c z => ⟨M05.WF_New0, M05.WF_New1 r, M05.WF_New2 r c, M05.WF_New3 r c z⟩
  · exact fun m r c q hm => M05.WF_Set m hm r c q
  · exact fun m q hm => M05.WF_SetAll m hm q
  · exact fun m f hm => M05.WF_Foreach m hm f
  · exact fun m r c o hm hok => M05.WF_Reshape m hm r c o hok
  · exact fun m v o hm hok => M05.WF_AppendRow m hm v o hok
  · exact fun m v o hm hok => M05.WF_AppendCol m hm v o hok
  · exact fun m n o hm hn hok => M05.WF_Concat m n hm hn o hok
  · exact fun m n p hm hn hok => M05.WF_AddMat m n hm hn p hok
  · exact fun m n p hm hn hok => M05.WF_SubMat m n hm hn p hok
  · exact fun m n p hm hn hok => M05.WF_MulMat m n hm hn p hok
  · exact fun m n p hm hn hok => M05.WF_DivMat m n hm hn p hok
  · exact fun m q hm => ⟨M05.WF_AddScalar m hm q, M05.WF_SubScalar m hm q,
      M05.WF_MulScalar m hm q, M05.WF_DivScalar m hm q⟩
  · exact fun m => ⟨M05.WF_T m, M05.WF_Copy m⟩
  · exact fun m x o hok => M05.WF_Col m x o hok
  · exact fun m x o hok => M05.WF_Row m x o hok
  · exact fun m n o hok => (M05.Dot_dims m n o hok).2.2
  · exact fun v => M05.WF_FromData1D0 v
  · exact fun v a o hok => M05.WF_FromData1D1 v a o hok
  · exact fun v a b o hok => M05.WF_FromData1D2 v a b o hok
  · exact fun v => M05.WF_FromData2D0 v
  · exact fun v a b o hok => M05.WF_FromData2D2 v a b o hok

/-- C6 witness: the Set-preservation conjunct instantiated on a concrete
2 by 2 matrix. -/
theorem C6_shape_invariant_witness :
    (M05.Set (⟨2, 2, [1, 2, 3, 4]⟩ : Mat ℚ) 0 1 9).WF :=
  C6_shape_invariant.2.2.1 ⟨2, 2, [1, 2, 3, 4]⟩ 0 1 9 (by decide)

/-- C7: Dot requires m.cols == n.rows (else ShapeMismatch); on success it is
a new m.rows by n.cols mat (satisfying the shape invariant, and leaving the
operands untouched — it is built from a fresh buffer) whose (i, j) entry is
the k-fold accumulation sum over k of m[i][k]*n[k][j], folded in increasing
k from the cell's initial zero, exactly as the i, j, k triple loop of the
source evaluates it. -/
theorem C7_dot {α : Type} [Zero α] [Add α] [Mul α] (m n : Mat α) :
    (m.c ≠ n.r → M05.Dot m n = .error .ShapeMismatch) ∧
    (∀ o : Mat α, M05.Dot m n = .ok o →
      o.r = m.r ∧ o.c = n.c ∧ o.WF ∧
      ∀ i j, i < m.r → j < n.c →
        M05.At o i j =
          (List.range m.c).foldl
            (fun acc k => acc + M05.At m i k * M05.At n k j) 0) := by
  constructor
  · exact M05.Dot_mismatch m n
  · intro o hok
    obtain ⟨hr, hc, hwf⟩ := M05.Dot_dims m n o hok
    refine ⟨hr, hc, hwf, ?_⟩
    intro i j hi hj
    exact M05.Dot_At m n o hok i j hi hj

/-- C7 witness: the (0, 1) entry of a concrete 2 by 2 product equals the
k-fold accumulation. -/
theorem C7_dot_witness :
    M05.At (⟨2, 2, [19, 22, 43, 50]⟩ : Mat ℤ) 0 1 =
      (List.range 2).foldl
        (fun acc k => acc + M05.At (⟨2, 2, [1, 2, 3, 4]⟩ : Mat ℤ) 0 k *
          M05.At (⟨2, 2, [5, 6, 7, 8]⟩ : Mat ℤ) k 1) 0 :=
  ((C7_dot (⟨2, 2, [1, 2, 3, 4]⟩ : Mat ℤ) ⟨2, 2, [5, 6, 7, 8]⟩).2
    ⟨2, 2, [19, 22, 43, 50]⟩ (by decide)).2.2.2 0 1 (by decide) (by decide)

/-- C8 counterexample: the claim asserts m.T().T().Equals(m) for ALL m, but
Equals compares entries with IEEE equality, under which NaN is unequal to
itself: the 1 by 1 matrix holding NaN is not Equals to its double
transpose. -/
theorem C8_counterexample :
    M05.Equals (M05.T (M05.T (⟨1, 1, [F64.nan]⟩ : Mat F64))) ⟨1, 1, [F64.nan]⟩ = false := by
  decide

/-- C8 (amended): T() is a new cols by rows mat with result[j][i] =
source[i][j] for every valid (i, j); double transposition restores the Mat
value itself — identical rows, cols and stored values — for every
well-formed m, NaN entries included; the Equals form of the involution,
m.T().T().Equals(m), holds exactly when m contains no NaN, since Equals
uses IEEE equality. -/
theorem C8_transpose (m : Mat F64) (hm : m.WF) :
    (M05.T m).r = m.c ∧ (M05.T m).c = m.r ∧ (M05.T m).WF ∧
    (∀ i j, i < m.r → j < m.c → M05.At (M05.T m) j i = M05.At m i j) ∧
    M05.T (M05.T m) = m ∧
    (F64.nan ∉ m.vals → M05.Equals (M05.T (M05.T m)) m = true) := by
  refine ⟨M05.T_r m, M05.T_c m, M05.WF_T m, ?_, M05.T_T m hm, ?_⟩
  · intro i j hi hj
    exact M05.T_At m i j hi hj
  · intro hnan
    rw [M05.T_T m hm]
    exact (M05.Equals_self_iff m hm).mpr hnan

/-- C8 witness: the theorem instantiated on a concrete 2 by 3 NaN-free
matrix. -/
theorem C8_transpose_witness :
    M05.T (M05.T (⟨2, 3, [F64.num 1, F64.num 2, F64.num 3,
        F64.num 4, F64.num 5, F64.num 6]⟩ : Mat F64)) =
      ⟨2, 3, [F64.num 1, F64.num 2, F64.num 3, F64.num 4, F64.num 5, F64.num 6]⟩ ∧
    M05.Equals (M05.T (M05.T (⟨2, 3, [F64.num 1, F64.num 2, F64.num 3,
        F64.num 4, F64.num 5, F64.num 6]⟩ : Mat F64)))
      ⟨2, 3, [F64.num 1, F64.num 2, F64.num 3, F64.num 4, F64.num 5, F64.num 6]⟩ = true :=
  ⟨(C8_transpose ⟨2, 3, [F64.num 1, F64.num 2, F64.num 3, F64.num 4, F64.num 5, F64.num 6]⟩
      (by decide)).2.2.2.2.1,
   (C8_transpose ⟨2, 3, [F64.num 1, F64.num 2, F64.num 3, F64.num 4, F64.num 5, F64.num 6]⟩
      (by decide)).2.2.2.2.2 (by simp)⟩

/-- C9: Col(x) accepts exactly x in [-cols, cols): an in-range non-negative
x selects column x and a negative x selects column cols + x, returning a
new rows by 1 mat (built in a fresh buffer) whose row-i entry is the
source's entry in that column; out-of-range x fails with IndexOutOfRange.
In particular Col(-1) on the 3 by 4 Fibonacci matrix equals Col(3). -/
theorem C9_col (m : Mat ℚ) (x : Int) :
    (-(m.c : Int) ≤ x → x < (m.c : Int) →
      ∃ v : Mat ℚ, M05.Col m x = .ok v ∧ v.r = m.r ∧ v.c = 1 ∧ v.WF ∧
        ∀ i, i < m.r →
          M05.At v i 0 = M05.At m i ((if 0 ≤ x then x else (m.c : Int) + x).toNat)) ∧
    (x < -(m.c : Int) ∨ (m.c : Int) ≤ x → M05.Col m x = .error .IndexOutOfRange) ∧
    (M05.Col (⟨3, 4, [1, 1, 2, 3, 5, 8, 13, 21, 34, 55, 89, 144]⟩ : Mat ℚ) (-1) =
      M05.Col ⟨3, 4, [1, 1, 2, 3, 5, 8, 13, 21, 34, 55, 89, 144]⟩ 3) := by
  refine ⟨?_, ?_, by decide⟩
  · intro hlo hhi
    refine ⟨_, M05.Col_in_range m x hlo hhi, rfl, rfl, ?_, ?_⟩
    · unfold Mat.WF
      simp only [length_writeRow, List.length_replicate]
    · intro i hi
      have hok := M05.Col_in_range m x hlo hhi
      have := M05.Col_At m x _ hok i hi
      rw [this]
      rfl
  · exact M05.Col_out_of_range m x

/-- C9 witness: Col(-1) on the 3 by 4 Fibonacci matrix is an owned 3 by 1
mat whose entries are those of column 3. -/
theorem C9_col_witness :
    ∃ v : Mat ℚ, M05.Col (⟨3, 4, [1, 1, 2, 3, 5, 8, 13, 21, 34, 55, 89, 144]⟩ : Mat ℚ) (-1) =
        .ok v ∧ v.r = 3 ∧ v.c = 1 ∧ v.WF ∧
      ∀ i, i < 3 →
        M05.At v i 0 =
          M05.At (⟨3, 4, [1, 1, 2, 3, 5, 8, 13, 21, 34, 55, 89, 144]⟩ : Mat ℚ) i
            ((if 0 ≤ (-1 : Int) then (-1 : Int) else ((4 : ℕ) : Int) + (-1 : Int)).toNat) :=
  (C9_col ⟨3, 4, [1, 1, 2, 3, 5, 8, 13, 21, 34, 55, 89, 144]⟩ (-1)).1
    (by decide) (by decide)

/-- C10: Equals is true iff rows match, cols match, and every linear index
up to rows*cols compares equal under IEEE equality; consequently a
well-formed mat is Equals to itself iff it contains no NaN. -/
theorem C10_equals (m n : Mat F64) (hm : m.WF) :
    (M05.Equals m n = true ↔
      m.r = n.r ∧ m.c = n.c ∧
        ∀ i < m.r * m.c, (m.vals.getD i 0 == n.vals.getD i 0) = true) ∧
    (M05.Equals m m = true ↔ F64.nan ∉ m.vals) := by
  exact ⟨M05.Equals_iff m n, M05.Equals_self_iff m hm⟩

/-- C10 witness: a concrete 1 by 2 mat with a NaN entry is not Equals to
itself, via the reflexivity characterization. -/
theorem C10_equals_witness :
    M05.Equals (⟨1, 2, [F64.num 1, F64.nan]⟩ : Mat F64)
        ⟨1, 2, [F64.num 1, F64.nan]⟩ = true ↔
      F64.nan ∉ (⟨1, 2, [F64.num 1, F64.nan]⟩ : Mat F64).vals :=
  (C10_equals ⟨1, 2, [F64.num 1, F64.nan]⟩ ⟨1, 2, [F64.num 1, F64.nan]⟩ (by decide)).2
